import Mathlib

/-!
Shallow embedding of the MariaDB-monitor per-server engine
(MariaDBServer, mariadbserver.cc) and theorems checking the
specification's claims against it.

Time quantities are modelled in milliseconds (Nat or Int as the C++
signedness requires); machine strings are Lean Strings; the backend is
modelled by explicit query-outcome inputs, so every function here is a
pure function of its inputs.
-/

set_option autoImplicit false

namespace MariaDBMon

/-- The single-quote character, written via its code point so the sources
of generated SQL strings can be reproduced verbatim. -/
def sq : String := String.mk [Char.ofNat 39]

/-- GtidList of §3 of the design: an ordered list of
(domain_id, server_id, sequence) triples. Only equality of the parsed
value is needed by the claims below. -/
abbrev GtidList := List (Nat × Nat × Nat)

/-- State of the slave IO thread, Slave_IO_Running decoded
(SlaveStatus::slave_io_from_string). -/
inductive SlaveIOState where
  | no
  | connecting
  | yes
deriving DecidableEq, Repr

/-- One replica-side replication channel snapshot, SlaveStatus of
mariadbserver.hh / §3 of the design. -/
structure SlaveStatus where
  name : String
  master_host : String
  master_port : Int
  master_server_id : Int
  slave_io_running : SlaveIOState
  slave_sql_running : Bool
  seconds_behind_master : Int
  gtid_io_pos : GtidList
  received_heartbeats : Int
  last_data_time : Int
  seen_connected : Bool
  last_error : String
deriving DecidableEq, Repr

/-- SERVER_ID_UNKNOWN sentinel. -/
def SERVER_ID_UNKNOWN : Int := -1

/-- MXS_RLAG_UNDEFINED sentinel for seconds_behind_master. -/
def MXS_RLAG_UNDEFINED : Int := -1

/-- OperationContext fields used when generating CHANGE MASTER commands
(GeneralOpData). -/
structure GeneralOpData where
  replication_user : String
  replication_password : String
  replication_ssl : Bool
deriving DecidableEq, Repr

/-- MariaDBServer::generate_change_master_cmd: builds the
CHANGE MASTER TO query from the operation credentials and the slave
connection to emulate.  The returned string carries the replication
password in clear text. -/
def generate_change_master_cmd (op : GeneralOpData) (slave_conn : SlaveStatus) : String :=
  let part1 := "CHANGE MASTER " ++ sq ++ slave_conn.name ++ sq ++ " TO MASTER_HOST = "
      ++ sq ++ slave_conn.master_host ++ sq ++ ", MASTER_PORT = "
      ++ toString slave_conn.master_port ++ ", "
  let part2 := part1 ++ "MASTER_USE_GTID = current_pos, "
  let part3 := part2 ++ (if op.replication_ssl then "MASTER_SSL = 1, " else "")
  let part4 := part3 ++ "MASTER_USER = " ++ sq ++ op.replication_user ++ sq ++ ", "
  part4 ++ "MASTER_PASSWORD = " ++ sq ++ op.replication_password ++ sq ++ ";"

/-- The error message produced by MariaDBServer::execute_cmd_ex when the
query fails: it embeds the full query text.  This is the message that
execute_cmd_no_retry and hence execute_cmd_time_limit hand back to their
callers. -/
def execute_cmd_fail_msg (cmd srv_name mysql_err : String) (errno : Nat) : String :=
  "Query " ++ sq ++ cmd ++ sq ++ " failed on " ++ sq ++ srv_name ++ sq ++ ": "
    ++ sq ++ mysql_err ++ sq ++ " (" ++ toString errno ++ ")."

/-- The MXS_ERROR log line emitted by MariaDBServer::create_start_slave
when the CHANGE MASTER command could not be executed; short_desc is
SlaveStatus::to_short_string() of the connection. -/
def create_start_slave_fail_log (short_desc err_msg : String) : String :=
  short_desc ++ " could not be created: " ++ err_msg

/-- The PRINT_MXS_JSON_ERROR message emitted by
MariaDBServer::redirect_existing_slave_conn when the CHANGE MASTER
command fails: it also embeds the caller-supplied error message. -/
def redirect_fail_json_msg (short_desc master_host : String) (master_port : Int)
    (err_msg : String) : String :=
  short_desc ++ " could not be redirected to [" ++ master_host ++ "]:"
    ++ toString master_port ++ ": " ++ err_msg

/-! ### Slave status refresh (do_show_slave_status and its helpers) -/

/-- Version-derived feature record of the server (Capabilities of
mariadbserver.hh). -/
structure Capabilities where
  basic_support : Bool
  gtid : Bool
  max_statement_time : Bool
deriving DecidableEq, Repr

/-- server_type enum of mariadbserver.hh. -/
inductive ServerType where
  | unknown
  | normal
  | binlog_router
deriving DecidableEq, Repr

/-- One row of a SHOW [ALL] SLAVE[S] STATUS result, with the column
values already decoded to their field types (the string-to-enum and
GtidList::from_string decodings happen where the columns are read and
their code lives outside this translation unit).
seconds_behind_master carries the raw value returned by the backend
(negative encodes SQL NULL). -/
structure RawSlaveRow where
  master_host : String
  master_port : Int
  last_io_error : String
  last_sql_error : String
  slave_io_running : SlaveIOState
  slave_sql_running : Bool
  master_server_id : Int
  seconds_behind_master : Int
  connection_name : String
  received_heartbeats : Int
  gtid_io_pos : GtidList
deriving DecidableEq, Repr

/-- Construction of a new SlaveStatus row in the result loop of
do_show_slave_status, before the merge with the previous tick's row.
The fields read only from the 42-column SHOW ALL SLAVES STATUS result
keep their defaults when all_slaves is false; last_data_time is set to
the current time and seen_connected starts false (field initializers of
SlaveStatus in mariadbserver.hh, per the §3 data model). -/
def SlaveStatus.fromRaw (all_slaves : Bool) (now : Int) (r : RawSlaveRow) : SlaveStatus :=
  { name := if all_slaves then r.connection_name else ""
    master_host := r.master_host
    master_port := r.master_port
    master_server_id := r.master_server_id
    slave_io_running := r.slave_io_running
    slave_sql_running := r.slave_sql_running
    seconds_behind_master :=
      if r.seconds_behind_master < 0 then MXS_RLAG_UNDEFINED
      else if r.seconds_behind_master > 2147483647 then 2147483647
      else r.seconds_behind_master
    gtid_io_pos := if all_slaves then r.gtid_io_pos else []
    received_heartbeats := if all_slaves then r.received_heartbeats else 0
    last_data_time := now
    seen_connected := false
    last_error := if r.last_io_error == "" then r.last_sql_error else r.last_io_error }

/-- Helper lambda of MariaDBServer::sstatus_find_previous_row: the
connection in the new (rhs) row goes to the same server as in the old
(lhs) row. -/
def compare_rows (lhs rhs : SlaveStatus) : Bool :=
  rhs.master_host == lhs.master_host && rhs.master_port == lhs.master_port

/-- MariaDBServer::sstatus_find_previous_row: find the row of the
previous tick's array matching the connection of search_row, first at
the positional hint guess_ind, then by linear scan. -/
def sstatus_find_previous_row (old_status : List SlaveStatus) (search_row : SlaveStatus)
    (guess_ind : Nat) : Option SlaveStatus :=
  match old_status[guess_ind]? with
  | some r =>
    if compare_rows r search_row then some r
    else old_status.find? (fun o => compare_rows o search_row)
  | none => old_status.find? (fun o => compare_rows o search_row)

/-- The per-row merge step of do_show_slave_status: carry forward
last_data_time when heartbeats and IO position are unchanged, then set
seen_connected per the connection state. -/
def mergeOldRow (old_status : List SlaveStatus) (idx : Nat) (row : SlaveStatus) : SlaveStatus :=
  let old_row := sstatus_find_previous_row old_status row idx
  let row1 :=
    match old_row with
    | some o =>
      if row.received_heartbeats == o.received_heartbeats && row.gtid_io_pos == o.gtid_io_pos
      then { row with last_data_time := o.last_data_time }
      else row
    | none => row
  match row1.slave_io_running with
  | .yes => { row1 with seen_connected := true }
  | .connecting =>
    match old_row with
    | some o =>
      if row1.master_server_id == o.master_server_id && o.seen_connected
      then { row1 with seen_connected := true }
      else row1
    | none => row1
  | .no => row1

/-- The result loop of do_show_slave_status: build the new slave status
array row by row; the positional hint for each row is its index in the
new array. -/
def build_slave_status_rows (all_slaves : Bool) (old_status : List SlaveStatus) (now : Int) :
    Nat → List RawSlaveRow → List SlaveStatus
  | _, [] => []
  | idx, r :: rest =>
    mergeOldRow old_status idx (SlaveStatus.fromRaw all_slaves now r)
      :: build_slave_status_rows all_slaves old_status now (idx + 1) rest

/-- Topology-relevant equality of two rows, as compared inside
MariaDBServer::sstatus_array_topology_equal. -/
def sstatus_row_topology_equal (new_row old_row : SlaveStatus) : Bool :=
  !(new_row.slave_io_running != old_row.slave_io_running
    || new_row.slave_sql_running != old_row.slave_sql_running
    || new_row.master_host != old_row.master_host
    || new_row.master_port != old_row.master_port
    || new_row.master_server_id != old_row.master_server_id)

/-- MariaDBServer::sstatus_array_topology_equal: equal length and
elementwise topology-equality of the stored array against the new
one. -/
def sstatus_array_topology_equal (old_status new_status : List SlaveStatus) : Bool :=
  if old_status.length != new_status.length then false
  else (List.zip new_status old_status).all fun p => sstatus_row_topology_equal p.1 p.2

/-- The agent state touched by update_slave_status: the cached slave
status array, the topology_changed flag and the shared server record's
master_id field. -/
structure MonitorState where
  slave_status : List SlaveStatus
  topology_changed : Bool
  master_id : Int
deriving DecidableEq, Repr

/-- Outcome of the SHOW [ALL] SLAVE[S] STATUS query when it returned a
result set: the column count, whether all the needed column headers
were found (the get_col_index checks), and the decoded rows. -/
structure SlaveStatusQueryRes where
  col_count : Nat
  headers_ok : Bool
  rows : List RawSlaveRow
deriving DecidableEq, Repr

/-- The query/column-count selection at the top of
do_show_slave_status: SHOW ALL SLAVES STATUS expecting 42 columns when
the server has the gtid capability or is a binlog router, else SHOW
SLAVE STATUS expecting 40 columns when it has basic support, else no
query (the method asserts and fails).  Returns (all_slaves, columns). -/
def slave_status_query_selection (caps : Capabilities) (srv_type : ServerType) :
    Option (Bool × Nat) :=
  if caps.gtid || srv_type == ServerType.binlog_router then some (true, 42)
  else if caps.basic_support then some (false, 40)
  else none

/-- MariaDBServer::do_show_slave_status: select the query, reject a
failed query, a short column count or missing headers (leaving the
state untouched), else rebuild the slave status array, set
topology_changed when the arrays are not topology-equal, and publish
the new array.  The query outcome is an input: none models a failed
query. -/
def do_show_slave_status (caps : Capabilities) (srv_type : ServerType) (st : MonitorState)
    (now : Int) (query_res : Option SlaveStatusQueryRes) : MonitorState × Bool :=
  match slave_status_query_selection caps srv_type with
  | none => (st, false)
  | some (all_slaves, columns) =>
    match query_res with
    | none => (st, false)
    | some res =>
      if res.col_count < columns then (st, false)
      else if !res.headers_ok then (st, false)
      else
        let slave_status_new := build_slave_status_rows all_slaves st.slave_status now 0 res.rows
        let topology_changed :=
          if !(sstatus_array_topology_equal st.slave_status slave_status_new) then true
          else st.topology_changed
        ({ st with slave_status := slave_status_new, topology_changed := topology_changed }, true)

/-- MariaDBServer::update_slave_status: run do_show_slave_status and on
success store the master_id of the first row (or SERVER_ID_UNKNOWN when
there are no rows) into the shared server record. -/
def update_slave_status (caps : Capabilities) (srv_type : ServerType) (st : MonitorState)
    (now : Int) (query_res : Option SlaveStatusQueryRes) : MonitorState × Bool :=
  let r := do_show_slave_status caps srv_type st now query_res
  if r.2 then
    ({ r.1 with
        master_id :=
          match r.1.slave_status with
          | [] => SERVER_ID_UNKNOWN
          | row :: _ => row.master_server_id }, true)
  else r

/-! ### execute_cmd_time_limit -/

/-- ER_STATEMENT_TIMEOUT of mysqld_error.h: query interrupted by
max_statement_time. -/
def ER_STATEMENT_TIMEOUT : Nat := 1969

/-- One execution attempt of the command as observed from outside:
whether the query succeeded, the mysql error number on failure, and how
long the attempt took (ms). -/
structure Attempt where
  success : Bool
  errnum : Nat
  dur : Nat
deriving DecidableEq, Repr

/-- Trace of an execute_cmd_time_limit run: how many times the command
was executed, the sleeps performed between attempts (ms), and the
overall outcome (none when the supplied attempt list ran out while the
loop still wanted to retry). -/
structure ExecTrace where
  attempts : Nat
  sleeps : List Nat
  result : Option Bool
deriving DecidableEq, Repr

/-- Whether the max_statement_time prefix is prepended to the command:
the capability is present and a positive connector read timeout is
known. -/
def max_stmt_time_applied (caps : Capabilities) (connector_timeout : Int) : Bool :=
  caps.max_statement_time && connector_timeout > 0

/-- The retry loop of MariaDBServer::execute_cmd_time_limit.  elapsed
accumulates the stopwatch (attempt durations plus sleeps); time
remaining is time_limit minus elapsed.  After a failed attempt the loop
retries iff time remains and the error is a connector network error or,
when the max_statement_time prefix was applied, ER_STATEMENT_TIMEOUT;
before a retry it sleeps the remainder of one second clamped to the
remaining time when the attempt took less than a second. -/
def ectl_go (is_net_error : Nat → Bool) (stmt_time_applied : Bool) (time_limit : Nat) :
    Nat → List Attempt → ExecTrace
  | _, [] => ⟨0, [], none⟩
  | elapsed, a :: rest =>
    let elapsed1 := elapsed + a.dur
    let keep_trying := decide (elapsed1 < time_limit)
      && (is_net_error a.errnum || (stmt_time_applied && a.errnum == ER_STATEMENT_TIMEOUT))
    if a.success then ⟨1, [], some true⟩
    else if keep_trying then
      if a.dur < 1000 then
        let this_sleep := min (time_limit - elapsed1) (1000 - a.dur)
        let t := ectl_go is_net_error stmt_time_applied time_limit (elapsed1 + this_sleep) rest
        ⟨t.attempts + 1, this_sleep :: t.sleeps, t.result⟩
      else
        let t := ectl_go is_net_error stmt_time_applied time_limit elapsed1 rest
        ⟨t.attempts + 1, t.sleeps, t.result⟩
    else ⟨1, [], some false⟩

/-- MariaDBServer::execute_cmd_time_limit, as the trace of its retry
loop over the given sequence of attempt outcomes. -/
def execute_cmd_time_limit (is_net_error : Nat → Bool) (stmt_time_applied : Bool)
    (time_limit : Nat) (env : List Attempt) : ExecTrace :=
  ectl_go is_net_error stmt_time_applied time_limit 0 env

/-! ### catchup_to_master -/

/-- Replication settings read by update_replication_settings. -/
structure ReplicationSettings where
  gtid_strict_mode : Bool
  log_bin : Bool
  log_slave_updates : Bool
deriving DecidableEq, Repr

/-- One iteration of the catchup polling loop as observed from outside:
the gtid positions read by update_gtids (none when the query failed,
some (binlog_pos, current_pos) on success) and how long the poll took
(ms). -/
structure PollStep (G : Type) where
  res : Option (G × G)
  dur : Int
deriving DecidableEq, Repr

/-- Trace of a catchup_to_master run: number of polls performed, the
sleeps between polls (ms), and the outcome (none when the poll list ran
out while the loop was still running). -/
structure CatchupTrace where
  polls : Nat
  sleeps : List Int
  result : Option Bool
deriving DecidableEq, Repr

/-- The polling loop of MariaDBServer::catchup_to_master.
events_ahead_zero g decides target.events_ahead(g, MISSING_DOMAIN_IGNORE) == 0
for the fixed catchup target (GtidList::events_ahead lives outside this
translation unit).  rem is op.time_remaining; sleep_time starts at
200 ms and grows by 100 ms per unsuccessful iteration, each sleep
clamped to the remaining time. -/
def catchup_go {G : Type} (events_ahead_zero : G → Bool) (use_binlog_pos : Bool) :
    Int → Int → List (PollStep G) → CatchupTrace
  | _, _, [] => ⟨0, [], none⟩
  | rem, sleep_time, p :: rest =>
    match p.res with
    | none => ⟨1, [], some false⟩
    | some (binlog_pos, current_pos) =>
      if events_ahead_zero (if use_binlog_pos then binlog_pos else current_pos) then
        ⟨1, [], some true⟩
      else
        let rem1 := rem - p.dur
        if rem1 > 0 then
          let this_sleep := min sleep_time rem1
          let t := catchup_go events_ahead_zero use_binlog_pos (rem1 - this_sleep)
            (sleep_time + 100) rest
          ⟨t.polls + 1, this_sleep :: t.sleeps, t.result⟩
        else ⟨1, [], some false⟩

/-- MariaDBServer::catchup_to_master: poll gtid_binlog_pos when both
log_bin and log_slave_updates are set, else gtid_current_pos, until the
target has no events ahead of the polled position, the time budget runs
out, or a poll fails. -/
def catchup_to_master {G : Type} (events_ahead_zero : G → Bool) (rpl : ReplicationSettings)
    (budget : Int) (env : List (PollStep G)) : CatchupTrace :=
  catchup_go events_ahead_zero (rpl.log_bin && rpl.log_slave_updates) budget 200 env

/-! ### merge_slave_conns -/

/-- The identity and cached connections of the promotion target as seen
by merge_slave_conns: its server id, its address and port, and its
current slave status array. -/
structure ServerView where
  server_id : Int
  address : String
  port : Int
  slave_status : List SlaveStatus
deriving DecidableEq, Repr

/-- The duplicate scan inside the conn_can_be_merged lambda of
merge_slave_conns: the loop body first tests seen_connected plus a
master_server_id match, else a master host:port match; the candidate is
rejected when any existing connection triggers either branch. -/
def merge_duplicate_check (srv : ServerView) (slave_conn : SlaveStatus) : Bool :=
  srv.slave_status.any fun my_slave_conn =>
    if my_slave_conn.seen_connected
        && my_slave_conn.master_server_id == slave_conn.master_server_id then true
    else my_slave_conn.master_host == slave_conn.master_host
        && my_slave_conn.master_port == slave_conn.master_port

/-- The conn_can_be_merged lambda of merge_slave_conns.  should_be_copied
abstracts SlaveStatus::should_be_copied (defined outside this
translation unit). -/
def conn_can_be_merged (srv : ServerView) (should_be_copied : SlaveStatus → Bool)
    (slave_conn : SlaveStatus) : Bool :=
  if !(should_be_copied slave_conn) then false
  else if slave_conn.master_server_id == srv.server_id then false
  else if slave_conn.master_host == srv.address && slave_conn.master_port == srv.port then false
  else !(merge_duplicate_check srv slave_conn)

/-- The synthesized connection name of check_modify_conn_name. -/
def synthesized_conn_name (slave_conn : SlaveStatus) : String :=
  "To [" ++ slave_conn.master_host ++ "]:" ++ toString slave_conn.master_port

/-- The merge loop of MariaDBServer::merge_slave_conns over the
connections to merge.  connection_names holds the names in use
(existing plus already created); create_ok abstracts the outcome of
create_start_slave.  Returns overall success and the list of
connections created (with their possibly renamed connection name). -/
def merge_slave_conns_go (srv : ServerView) (should_be_copied create_ok : SlaveStatus → Bool) :
    List String → List SlaveStatus → Bool × List SlaveStatus
  | _, [] => (true, [])
  | connection_names, slave_conn :: rest =>
    if conn_can_be_merged srv should_be_copied slave_conn then
      if connection_names.contains slave_conn.name then
        if connection_names.contains (synthesized_conn_name slave_conn) then (false, [])
        else
          let renamed := { slave_conn with name := synthesized_conn_name slave_conn }
          if create_ok renamed then
            let t := merge_slave_conns_go srv should_be_copied create_ok
              (renamed.name :: connection_names) rest
            (t.1, renamed :: t.2)
          else (false, [])
      else
        if create_ok slave_conn then
          let t := merge_slave_conns_go srv should_be_copied create_ok
            (slave_conn.name :: connection_names) rest
          (t.1, slave_conn :: t.2)
        else (false, [])
    else merge_slave_conns_go srv should_be_copied create_ok connection_names rest

/-- MariaDBServer::merge_slave_conns: the names already in use start as
the names of the promotion target's existing connections. -/
def merge_slave_conns (srv : ServerView) (should_be_copied create_ok : SlaveStatus → Bool)
    (conns_to_merge : List SlaveStatus) : Bool × List SlaveStatus :=
  merge_slave_conns_go srv should_be_copied create_ok
    (srv.slave_status.map fun c => c.name) conns_to_merge

/-! ### remove_slave_conns -/

/-- The stop-and-reset loop of remove_slave_conns: stop_slave_conn with
RESET_ALL on each connection to remove, aborting at the first
failure.  stop_ok abstracts the outcome per connection name. -/
def remove_stop_loop (stop_ok : String → Bool) : List SlaveStatus → Bool
  | [] => true
  | c :: rest => if stop_ok c.name then remove_stop_loop stop_ok rest else false

/-- MariaDBServer::remove_slave_conns: stop and reset the given
connections, refresh the slave status (refreshed is the array published
by a successful do_show_slave_status, none when that query failed), and
succeed only when none of the removed connection names is still
present.  Returns overall success and the slave status array after the
call. -/
def remove_slave_conns (stop_ok : String → Bool) (conns_to_remove : List SlaveStatus)
    (cur_status : List SlaveStatus) (refreshed : Option (List SlaveStatus)) :
    Bool × List SlaveStatus :=
  if remove_stop_loop stop_ok conns_to_remove then
    match refreshed with
    | some new_status =>
      let connection_names := new_status.map fun s => s.name
      let found := conns_to_remove.countP fun c => connection_names.contains c.name
      (found == 0, new_status)
    | none => (false, cur_status)
  else (false, cur_status)

/-! ### kick_out_super_users -/

/-- ER_DBACCESS_DENIED_ERROR of mysqld_error.h. -/
def ER_DBACCESS_DENIED_ERROR : Nat := 1044

/-- ER_TABLEACCESS_DENIED_ERROR of mysqld_error.h. -/
def ER_TABLEACCESS_DENIED_ERROR : Nat := 1142

/-- ER_COLUMNACCESS_DENIED_ERROR of mysqld_error.h. -/
def ER_COLUMNACCESS_DENIED_ERROR : Nat := 1143

/-- Outcome of kick_out_super_users: return value, the entries appended
to the JSON error channel, and the warnings written to the log sink. -/
structure KickResult where
  ok : Bool
  json_errors : List String
  warnings : List String
deriving DecidableEq, Repr

/-- The kill loop of kick_out_super_users over the enumerated
(connection id, user) rows: a successful KILL logs a warning, a failed
one appends a JSON error and makes the overall result an error, without
stopping the loop. -/
def kick_kill_loop (kill_ok : Int → Bool) : List (Int × String) → KickResult
  | [] => ⟨true, [], []⟩
  | (conn_id, user) :: rest =>
    let t := kick_kill_loop kill_ok rest
    if kill_ok conn_id then
      { t with warnings :=
          ("Killed connection id " ++ toString conn_id ++ " from super-user "
            ++ user ++ " to prevent writes.") :: t.warnings }
    else
      ⟨false,
        ("Could not kill connection " ++ toString conn_id ++ " from super-user "
          ++ user ++ ".") :: t.json_errors,
        t.warnings⟩

/-- MariaDBServer::kick_out_super_users: enumerate live super-user
connections (enum_res is the query outcome, none with the mysql errno
when it failed) and kill each.  A query failure from insufficient
rights (database, table or column access denied) is downgraded to a
warning and is not an error; any other query failure appends a JSON
error and fails. -/
def kick_out_super_users (enum_res : Option (List (Int × String))) (errnum : Nat)
    (kill_ok : Int → Bool) : KickResult :=
  match enum_res with
  | some rows => kick_kill_loop kill_ok rows
  | none =>
    if errnum == ER_DBACCESS_DENIED_ERROR || errnum == ER_TABLEACCESS_DENIED_ERROR
        || errnum == ER_COLUMNACCESS_DENIED_ERROR then
      ⟨true, [], ["Insufficient rights to query logged in super-users."]⟩
    else ⟨false, ["Could not query connected super-users."], []⟩

/-- A fully defaulted SlaveStatus value, used to build concrete rows in
counterexamples and witnesses. -/
def baseStatus : SlaveStatus :=
  { name := ""
    master_host := ""
    master_port := 0
    master_server_id := SERVER_ID_UNKNOWN
    slave_io_running := .no
    slave_sql_running := false
    seconds_behind_master := MXS_RLAG_UNDEFINED
    gtid_io_pos := []
    received_heartbeats := 0
    last_data_time := 0
    seen_connected := false
    last_error := "" }

/-- A fully defaulted raw result row, likewise for concrete inputs. -/
def baseRaw : RawSlaveRow :=
  { master_host := ""
    master_port := 0
    last_io_error := ""
    last_sql_error := ""
    slave_io_running := .no
    slave_sql_running := false
    master_server_id := SERVER_ID_UNKNOWN
    seconds_behind_master := -1
    connection_name := ""
    received_heartbeats := 0
    gtid_io_pos := [] }

/-- A concrete previous-tick row used by the seen_connected witness. -/
def prevRowW : SlaveStatus :=
  { baseStatus with
    master_host := "m"
    master_port := 1
    master_server_id := 3
    seen_connected := true }

/-- A concrete CONNECTING result row used by the seen_connected
witness, replicating from the same master as prevRowW. -/
def rawRowW : RawSlaveRow :=
  { baseRaw with
    master_host := "m"
    master_port := 1
    master_server_id := 3
    slave_io_running := SlaveIOState.connecting }

/-- The filter of claim C5, as amended: a channel is filtered iff it
targets the promotion target itself by master_server_id or by master
host:port, or it duplicates an existing channel that has been seen
connected by master_server_id, or any existing channel by master
host:port. -/
def claim_merge_filtered (srv : ServerView) (c : SlaveStatus) : Bool :=
  c.master_server_id == srv.server_id
  || (c.master_host == srv.address && c.master_port == srv.port)
  || srv.slave_status.any
      (fun m => m.seen_connected && m.master_server_id == c.master_server_id)
  || srv.slave_status.any
      (fun m => m.master_host == c.master_host && m.master_port == c.master_port)

/-- Acceptance per claim C5 as amended: passes the copy test and is not
filtered. -/
def claim_merge_accepts (srv : ServerView) (should_be_copied : SlaveStatus → Bool)
    (c : SlaveStatus) : Bool :=
  should_be_copied c && !(claim_merge_filtered srv c)

/-- The channels claim C5 (amended) says merge_slave_conns creates, in
order: the accepted channels, each renamed to the synthesized
"To [host]:port" name when its own name is already taken by an existing
or previously created channel. -/
def claim_merged_conns (srv : ServerView) (should_be_copied : SlaveStatus → Bool) :
    List String → List SlaveStatus → List SlaveStatus
  | _, [] => []
  | names, c :: rest =>
    if claim_merge_accepts srv should_be_copied c then
      let nm := if names.contains c.name then synthesized_conn_name c else c.name
      { c with name := nm } :: claim_merged_conns srv should_be_copied (nm :: names) rest
    else claim_merged_conns srv should_be_copied names rest

/-- A promotion target used by the C5 counterexample: it has one
existing channel to master id 5 that was never seen connected. -/
def srvW : ServerView :=
  { server_id := 100
    address := "p"
    port := 1
    slave_status := [{ baseStatus with
      name := "old"
      master_host := "h2"
      master_port := 2
      master_server_id := 5
      seen_connected := false }] }

/-- A candidate channel for the C5 counterexample: same master id 5 as
the existing channel of srvW, different host:port. -/
def connW : SlaveStatus :=
  { baseStatus with
    name := "c1"
    master_host := "h3"
    master_port := 3
    master_server_id := 5 }

/-- Distinctness of rows by their identity key: per §4.2.1 of the
design, a SlaveStatus row's identity across ticks is
(master_host, master_port), so the previous tick's array holds at most
one row per key. -/
def hostPortDistinct (l : List SlaveStatus) : Prop :=
  l.Pairwise fun a b => ¬(a.master_host = b.master_host ∧ a.master_port = b.master_port)

instance (l : List SlaveStatus) : Decidable (hostPortDistinct l) :=
  inferInstanceAs (Decidable (l.Pairwise _))

/-! ## Theorems -/

set_option maxRecDepth 4096

/-- Helper: whenever do_show_slave_status reports failure, the agent
state is left untouched. -/
theorem do_show_fail_unchanged (caps : Capabilities) (srv_type : ServerType)
    (st : MonitorState) (now : Int) (qres : Option SlaveStatusQueryRes) :
    (do_show_slave_status caps srv_type st now qres).2 = false →
    (do_show_slave_status caps srv_type st now qres).1 = st := by
  unfold do_show_slave_status
  rcases slave_status_query_selection caps srv_type with _ | ⟨all_slaves, columns⟩
  · simp
  · rcases qres with _ | res
    · simp
    · by_cases h1 : res.col_count < columns
      · simp [h1]
      · by_cases h2 : res.headers_ok <;> simp [h1, h2]

/-- Claim C1: the spec says the replication password is never echoed to
any log sink or to the JSON error channel.  The code violates this and
says so itself (the comments " TODO: This may currently print out
passwords." next to both error paths): when the CHANGE MASTER command
of create_start_slave fails, the emitted MXS_ERROR line embeds the
failed query text, and that text carries the password in clear.  This
theorem evaluates the embedded code at such a failing input and
exhibits the password inside the logged message. -/
theorem c1_password_leak_in_error_log :
    ∃ a b : String,
      create_start_slave_fail_log "Slave c1"
        (execute_cmd_fail_msg
          (generate_change_master_cmd ⟨"repl", "p4ssw0rd", false⟩
            { baseStatus with name := "c1", master_host := "master1", master_port := 3306 })
          "server2" "Lost connection to MySQL server" 2013)
      = a ++ "p4ssw0rd" ++ b := by
  refine ⟨"Slave c1 could not be created: Query " ++ sq ++ "CHANGE MASTER " ++ sq ++ "c1"
      ++ sq ++ " TO MASTER_HOST = " ++ sq ++ "master1" ++ sq
      ++ ", MASTER_PORT = 3306, MASTER_USE_GTID = current_pos, MASTER_USER = "
      ++ sq ++ "repl" ++ sq ++ ", MASTER_PASSWORD = " ++ sq,
    sq ++ ";" ++ sq ++ " failed on " ++ sq ++ "server2" ++ sq ++ ": " ++ sq
      ++ "Lost connection to MySQL server" ++ sq ++ " (2013).", ?_⟩
  decide

/-- Claim C2 counterexample: update_slave_status never clears
topology_changed, so after a successful run over topology-equal arrays
the flag can still be true (here: it was set before the call, e.g. by
read_server_variables earlier in the same tick), while the claim
demands it equal the negation of topology-equality, i.e. false. -/
theorem c2_counterexample :
    (update_slave_status ⟨true, false, false⟩ ServerType.normal
        ⟨[], true, -1⟩ 0 (some ⟨40, true, []⟩)).2 = true
    ∧ sstatus_array_topology_equal ([] : List SlaveStatus)
        (update_slave_status ⟨true, false, false⟩ ServerType.normal
          ⟨[], true, -1⟩ 0 (some ⟨40, true, []⟩)).1.slave_status = true
    ∧ (update_slave_status ⟨true, false, false⟩ ServerType.normal
        ⟨[], true, -1⟩ 0 (some ⟨40, true, []⟩)).1.topology_changed = true := by
  decide

/-- Claim C2, amended: after every successful run of
update_slave_status, topology_changed is the previous flag value OR-ed
with the negation of topology-equality between the previous and the new
slave_status arrays: it is set when the arrays differ in topology and
otherwise retains its previous value (it is never cleared here). -/
theorem c2_topology_changed_amended (caps : Capabilities) (srv_type : ServerType)
    (st : MonitorState) (now : Int) (qres : Option SlaveStatusQueryRes) :
    (update_slave_status caps srv_type st now qres).2 = true →
    (update_slave_status caps srv_type st now qres).1.topology_changed
      = (st.topology_changed
          || !(sstatus_array_topology_equal st.slave_status
              (update_slave_status caps srv_type st now qres).1.slave_status)) := by
  unfold update_slave_status do_show_slave_status
  rcases slave_status_query_selection caps srv_type with _ | ⟨all_slaves, columns⟩
  · simp
  · rcases qres with _ | res
    · simp
    · by_cases h1 : res.col_count < columns
      · simp [h1]
      · by_cases h2 : res.headers_ok
        · by_cases h3 : sstatus_array_topology_equal st.slave_status
              (build_slave_status_rows all_slaves st.slave_status now 0 res.rows)
            <;> simp [h1, h2, h3]
        · simp [h1, h2]

/-- Witness for c2_topology_changed_amended at a concrete successful
run: one connecting row appears where there was none, so the flag
(previously false) becomes true. -/
theorem c2_witness :
    (update_slave_status ⟨true, true, false⟩ ServerType.normal
        ⟨[], false, -1⟩ 7 (some ⟨42, true, [baseRaw]⟩)).1.topology_changed
      = (false
          || !(sstatus_array_topology_equal ([] : List SlaveStatus)
              (update_slave_status ⟨true, true, false⟩ ServerType.normal
                ⟨[], false, -1⟩ 7 (some ⟨42, true, [baseRaw]⟩)).1.slave_status)) :=
  c2_topology_changed_amended ⟨true, true, false⟩ ServerType.normal
    ⟨[], false, -1⟩ 7 (some ⟨42, true, [baseRaw]⟩) (by decide)

/-- Claim C6: the query and expected column count are selected by the
gtid capability / binlog-router type (SHOW ALL SLAVES STATUS, 42) or
basic support (SHOW SLAVE STATUS, 40); a result with fewer than the
expected columns makes the call fail, and on that failure, or any query
failure, the cached slave_status array is left unchanged. -/
theorem c6_do_show_slave_status (caps : Capabilities) (srv_type : ServerType)
    (st : MonitorState) (now : Int) (qres : Option SlaveStatusQueryRes) :
    ((caps.gtid = true ∨ srv_type = ServerType.binlog_router) →
      slave_status_query_selection caps srv_type = some (true, 42))
    ∧ (caps.gtid = false → srv_type ≠ ServerType.binlog_router → caps.basic_support = true →
      slave_status_query_selection caps srv_type = some (false, 40))
    ∧ (∀ all_slaves columns res,
        slave_status_query_selection caps srv_type = some (all_slaves, columns) →
        qres = some res → res.col_count < columns →
        do_show_slave_status caps srv_type st now qres = (st, false))
    ∧ (qres = none → do_show_slave_status caps srv_type st now qres = (st, false))
    ∧ ((do_show_slave_status caps srv_type st now qres).2 = false →
        (do_show_slave_status caps srv_type st now qres).1.slave_status = st.slave_status) := by
  refine ⟨?_, ?_, ?_, ?_, ?_⟩
  · rintro (h | h) <;> simp [slave_status_query_selection, h]
  · intro h1 h2 h3
    have hb : (srv_type == ServerType.binlog_router) = false := by
      cases srv_type <;> simp_all
    simp [slave_status_query_selection, h1, hb, h3]
  · intro all_slaves columns res hsel hq hcols
    simp only [do_show_slave_status, hsel, hq]
    simp [hcols]
  · intro hq
    unfold do_show_slave_status
    rcases slave_status_query_selection caps srv_type with _ | ⟨a, c⟩ <;> simp [hq]
  · intro hfail
    rw [do_show_fail_unchanged caps srv_type st now qres hfail]

/-- Witness for c6_do_show_slave_status: a 41-column result for the
42-column query is rejected and the cached state is untouched. -/
theorem c6_witness :
    do_show_slave_status ⟨true, true, false⟩ ServerType.normal
        ⟨[baseStatus], false, -1⟩ 0 (some ⟨41, true, [baseRaw]⟩)
      = (⟨[baseStatus], false, -1⟩, false) :=
  (c6_do_show_slave_status ⟨true, true, false⟩ ServerType.normal
      ⟨[baseStatus], false, -1⟩ 0 (some ⟨41, true, [baseRaw]⟩)).2.2.1
    true 42 ⟨41, true, [baseRaw]⟩ (by decide) rfl (by decide)

/-- Claim C10: after a successful update_slave_status, the shared
server record's master_id is the master_server_id of the first row of
the new slave_status array, or SERVER_ID_UNKNOWN (-1) when the array is
empty; when the status query fails, master_id is left unchanged. -/
theorem c10_update_master_id (caps : Capabilities) (srv_type : ServerType)
    (st : MonitorState) (now : Int) (qres : Option SlaveStatusQueryRes) :
    ((update_slave_status caps srv_type st now qres).2 = true →
      (update_slave_status caps srv_type st now qres).1.master_id
        = (match (update_slave_status caps srv_type st now qres).1.slave_status with
            | [] => SERVER_ID_UNKNOWN
            | row :: _ => row.master_server_id))
    ∧ ((update_slave_status caps srv_type st now qres).2 = false →
      (update_slave_status caps srv_type st now qres).1.master_id = st.master_id) := by
  constructor
  · intro hok
    unfold update_slave_status at *
    by_cases h : (do_show_slave_status caps srv_type st now qres).2 <;> simp [h] at hok ⊢
  · intro hfail
    unfold update_slave_status at *
    by_cases h : (do_show_slave_status caps srv_type st now qres).2 <;>
      simp [h] at hfail ⊢
    rw [do_show_fail_unchanged caps srv_type st now qres (by simp [h])]

/-- Witness for c10_update_master_id: a successful refresh with one row
whose master_server_id is 7 stores 7 in the server record. -/
theorem c10_witness :
    (update_slave_status ⟨true, true, false⟩ ServerType.normal ⟨[], false, -1⟩ 0
        (some ⟨42, true, [{ baseRaw with master_server_id := 7 }]⟩)).1.master_id
      = (match (update_slave_status ⟨true, true, false⟩ ServerType.normal ⟨[], false, -1⟩ 0
            (some ⟨42, true, [{ baseRaw with master_server_id := 7 }]⟩)).1.slave_status with
          | [] => SERVER_ID_UNKNOWN
          | row :: _ => row.master_server_id) :=
  (c10_update_master_id ⟨true, true, false⟩ ServerType.normal ⟨[], false, -1⟩ 0
      (some ⟨42, true, [{ baseRaw with master_server_id := 7 }]⟩)).1 (by decide)

/-- Claim C8: when remove_slave_conns succeeds, the refreshed
slave_status array contains no row named like any removed connection;
when a removed name survives the post-removal refresh, the call
fails. -/
theorem c8_remove_slave_conns (stop_ok : String → Bool) (conns_to_remove : List SlaveStatus)
    (cur_status : List SlaveStatus) (refreshed : Option (List SlaveStatus)) :
    ((remove_slave_conns stop_ok conns_to_remove cur_status refreshed).1 = true →
      ∀ c ∈ conns_to_remove,
        ∀ row ∈ (remove_slave_conns stop_ok conns_to_remove cur_status refreshed).2,
          row.name ≠ c.name)
    ∧ (∀ new_status, refreshed = some new_status →
        (∃ c ∈ conns_to_remove, ∃ row ∈ new_status, row.name = c.name) →
        (remove_slave_conns stop_ok conns_to_remove cur_status refreshed).1 = false) := by
  constructor
  · intro hok c hc row hrow heq
    unfold remove_slave_conns at hok hrow
    by_cases hstop : remove_stop_loop stop_ok conns_to_remove
    · rcases refreshed with _ | new_status
      · simp [hstop] at hok
      · simp only [hstop, if_true] at hok hrow
        have hcount : conns_to_remove.countP
            (fun c => (new_status.map fun s => s.name).contains c.name) = 0 := by
          simpa using hok
        have hnone := List.countP_eq_zero.mp hcount c hc
        apply hnone
        have : row.name ∈ new_status.map fun s => s.name := List.mem_map_of_mem _ hrow
        rw [heq] at this
        simpa [List.contains, List.any_eq_true] using
          (List.elem_eq_true_of_mem this)
    · simp [hstop] at hok
  · rintro new_status rfl ⟨c, hc, row, hrow, heq⟩
    unfold remove_slave_conns
    by_cases hstop : remove_stop_loop stop_ok conns_to_remove
    · simp only [hstop, if_true]
      have hmem : c.name ∈ new_status.map fun s => s.name := by
        rw [← heq]; exact List.mem_map_of_mem _ hrow
      have hpos : 0 < conns_to_remove.countP
          (fun c => (new_status.map fun s => s.name).contains c.name) := by
        apply List.countP_pos_iff.mpr
        exact ⟨c, hc, by simpa [List.contains, List.any_eq_true] using
          List.elem_eq_true_of_mem hmem⟩
      exact beq_eq_false_iff_ne.mpr (Nat.pos_iff_ne_zero.mp hpos)
    · simp [hstop]

/-- Witness for c8_remove_slave_conns: both connections removed and
gone from the refreshed array; the call reports success and indeed no
refreshed row carries a removed name. -/
theorem c8_witness :
    ∀ c ∈ [{ baseStatus with name := "a" }, { baseStatus with name := "b" }],
      ∀ row ∈ (remove_slave_conns (fun _ => true)
          [{ baseStatus with name := "a" }, { baseStatus with name := "b" }]
          [{ baseStatus with name := "a" }, { baseStatus with name := "b" }]
          (some [{ baseStatus with name := "c" }])).2,
        row.name ≠ c.name :=
  (c8_remove_slave_conns (fun _ => true)
      [{ baseStatus with name := "a" }, { baseStatus with name := "b" }]
      [{ baseStatus with name := "a" }, { baseStatus with name := "b" }]
      (some [{ baseStatus with name := "c" }])).1 (by decide)

/-- Helper: the kill loop of kick_out_super_users succeeds, with an
empty JSON error list, exactly when every enumerated connection could
be killed. -/
theorem kick_kill_loop_char (kill_ok : Int → Bool) (rows : List (Int × String)) :
    (kick_kill_loop kill_ok rows).ok = rows.all (fun r => kill_ok r.1)
    ∧ ((kick_kill_loop kill_ok rows).json_errors = []
        ↔ rows.all (fun r => kill_ok r.1) = true) := by
  induction rows with
  | nil => simp [kick_kill_loop]
  | cons r rest ih =>
    obtain ⟨r1, r2⟩ := r
    by_cases h : kill_ok r1 <;>
      simp [kick_kill_loop, h, ih.1, ih.2]

/-- Claim C9: an access-denied failure (database, table or column) of
the super-user enumeration query is downgraded to a warning and the
call still succeeds with nothing on the JSON error channel; any other
enumeration failure, and any failure to kill an enumerated connection,
makes the call fail with a JSON error appended. -/
theorem c9_kick_out_super_users (enum_res : Option (List (Int × String))) (errnum : Nat)
    (kill_ok : Int → Bool) :
    (enum_res = none →
      ((errnum = ER_DBACCESS_DENIED_ERROR ∨ errnum = ER_TABLEACCESS_DENIED_ERROR
          ∨ errnum = ER_COLUMNACCESS_DENIED_ERROR) →
        (kick_out_super_users enum_res errnum kill_ok).ok = true
        ∧ (kick_out_super_users enum_res errnum kill_ok).json_errors = []
        ∧ (kick_out_super_users enum_res errnum kill_ok).warnings ≠ [])
      ∧ (¬(errnum = ER_DBACCESS_DENIED_ERROR ∨ errnum = ER_TABLEACCESS_DENIED_ERROR
          ∨ errnum = ER_COLUMNACCESS_DENIED_ERROR) →
        (kick_out_super_users enum_res errnum kill_ok).ok = false
        ∧ (kick_out_super_users enum_res errnum kill_ok).json_errors ≠ []))
    ∧ (∀ rows, enum_res = some rows →
        ((∃ r ∈ rows, kill_ok r.1 = false) →
          (kick_out_super_users enum_res errnum kill_ok).ok = false
          ∧ (kick_out_super_users enum_res errnum kill_ok).json_errors ≠ [])
        ∧ ((∀ r ∈ rows, kill_ok r.1 = true) →
          (kick_out_super_users enum_res errnum kill_ok).ok = true
          ∧ (kick_out_super_users enum_res errnum kill_ok).json_errors = [])) := by
  constructor
  · rintro rfl
    constructor
    · intro h
      have hcond : (errnum == ER_DBACCESS_DENIED_ERROR
          || errnum == ER_TABLEACCESS_DENIED_ERROR
          || errnum == ER_COLUMNACCESS_DENIED_ERROR) = true := by
        rcases h with h | h | h <;> simp [h]
      simp [kick_out_super_users, hcond]
    · intro h
      have hcond : (errnum == ER_DBACCESS_DENIED_ERROR
          || errnum == ER_TABLEACCESS_DENIED_ERROR
          || errnum == ER_COLUMNACCESS_DENIED_ERROR) = false := by
        simp only [Bool.or_eq_false_iff, beq_eq_false_iff_ne]
        push_neg at h
        exact ⟨⟨h.1, h.2.1⟩, h.2.2⟩
      simp [kick_out_super_users, hcond]
  · rintro rows rfl
    constructor
    · rintro ⟨r, hr, hkill⟩
      have hall : rows.all (fun r => kill_ok r.1) = false := by
        simp only [List.all_eq_false]
        exact ⟨r, hr, by simp [hkill]⟩
      constructor
      · simpa [kick_out_super_users, hall] using (kick_kill_loop_char kill_ok rows).1
      · intro hjson
        have := (kick_kill_loop_char kill_ok rows).2.mp (by simpa [kick_out_super_users] using hjson)
        rw [this] at hall
        simp at hall
    · intro hall
      have hall' : rows.all (fun r => kill_ok r.1) = true := List.all_eq_true.mpr hall
      constructor
      · simpa [kick_out_super_users, hall'] using (kick_kill_loop_char kill_ok rows).1
      · simpa [kick_out_super_users] using (kick_kill_loop_char kill_ok rows).2.mpr hall'

/-- Witness for c9_kick_out_super_users: enumeration denied with
ER_DBACCESS_DENIED_ERROR still succeeds, with an empty JSON error
channel and a warning emitted. -/
theorem c9_witness :
    (kick_out_super_users none ER_DBACCESS_DENIED_ERROR (fun _ => true)).ok = true
    ∧ (kick_out_super_users none ER_DBACCESS_DENIED_ERROR (fun _ => true)).json_errors = []
    ∧ (kick_out_super_users none ER_DBACCESS_DENIED_ERROR (fun _ => true)).warnings ≠ [] :=
  ((c9_kick_out_super_users none ER_DBACCESS_DENIED_ERROR (fun _ => true)).1 rfl).1
    (Or.inl rfl)

/-- Helper: the retry loop always performs the head attempt, whatever
the elapsed time and budget. -/
theorem ectl_go_attempts_pos (is_net_error : Nat → Bool) (stmt_time_applied : Bool)
    (time_limit elapsed : Nat) (a : Attempt) (rest : List Attempt) :
    1 ≤ (ectl_go is_net_error stmt_time_applied time_limit elapsed (a :: rest)).attempts := by
  simp only [ectl_go]
  by_cases hs : a.success
  · simp [hs]
  · by_cases hk : (decide (elapsed + a.dur < time_limit)
        && (is_net_error a.errnum
          || (stmt_time_applied && a.errnum == ER_STATEMENT_TIMEOUT))) = true
    · by_cases hd : a.dur < 1000 <;> simp [hs, hk, hd]
    · simp [hs, Bool.not_eq_true _ ▸ hk]

/-- Claim C4: execute_cmd_time_limit always executes the command at
least once, even with the budget exhausted; after a failed attempt it
retries iff time remains and the error is a connector network error or
an ER_STATEMENT_TIMEOUT with the max_statement_time prefix applied; any
other error or an exhausted budget ends the loop with failure; and
before a retry, an attempt that took under one second is followed by a
sleep of the remainder of that second clamped to the remaining
budget. -/
theorem c4_execute_cmd_time_limit (is_net_error : Nat → Bool) (stmt_time_applied : Bool)
    (time_limit : Nat) (a : Attempt) (rest : List Attempt) :
    1 ≤ (execute_cmd_time_limit is_net_error stmt_time_applied time_limit (a :: rest)).attempts
    ∧ (a.success = false →
        (¬(a.dur < time_limit
            ∧ (is_net_error a.errnum = true
              ∨ (stmt_time_applied = true ∧ a.errnum = ER_STATEMENT_TIMEOUT))) →
          execute_cmd_time_limit is_net_error stmt_time_applied time_limit (a :: rest)
            = ⟨1, [], some false⟩)
        ∧ ((a.dur < time_limit
            ∧ (is_net_error a.errnum = true
              ∨ (stmt_time_applied = true ∧ a.errnum = ER_STATEMENT_TIMEOUT))) →
          (a.dur < 1000 →
            execute_cmd_time_limit is_net_error stmt_time_applied time_limit (a :: rest)
              = ⟨(ectl_go is_net_error stmt_time_applied time_limit
                    (a.dur + min (time_limit - a.dur) (1000 - a.dur)) rest).attempts + 1,
                  min (time_limit - a.dur) (1000 - a.dur)
                    :: (ectl_go is_net_error stmt_time_applied time_limit
                        (a.dur + min (time_limit - a.dur) (1000 - a.dur)) rest).sleeps,
                  (ectl_go is_net_error stmt_time_applied time_limit
                    (a.dur + min (time_limit - a.dur) (1000 - a.dur)) rest).result⟩)
          ∧ (1000 ≤ a.dur →
            execute_cmd_time_limit is_net_error stmt_time_applied time_limit (a :: rest)
              = ⟨(ectl_go is_net_error stmt_time_applied time_limit a.dur rest).attempts + 1,
                  (ectl_go is_net_error stmt_time_applied time_limit a.dur rest).sleeps,
                  (ectl_go is_net_error stmt_time_applied time_limit a.dur rest).result⟩))) := by
  refine ⟨ectl_go_attempts_pos _ _ _ _ a rest, fun hs => ⟨?_, fun hr => ⟨?_, ?_⟩⟩⟩
  · intro hnr
    push_neg at hnr
    by_cases h1 : a.dur < time_limit
    · have h2 : is_net_error a.errnum = false := by simpa using (hnr h1).1
      have h3 : (stmt_time_applied && (a.errnum == ER_STATEMENT_TIMEOUT)) = false := by
        cases hp : stmt_time_applied
        · simp
        · have hne : a.errnum ≠ ER_STATEMENT_TIMEOUT := fun he => (hnr h1).2 hp he
          simp [hne]
      simp [execute_cmd_time_limit, ectl_go, hs, h2, h3]
    · simp [execute_cmd_time_limit, ectl_go, hs, h1]
  · intro hd
    have h2 : (is_net_error a.errnum
        || (stmt_time_applied && a.errnum == ER_STATEMENT_TIMEOUT)) = true := by
      rcases hr.2 with h | ⟨hp, he⟩
      · simp [h]
      · simp [hp, he]
    simp [execute_cmd_time_limit, ectl_go, hs, hr.1, h2, hd]
  · intro hd
    have h2 : (is_net_error a.errnum
        || (stmt_time_applied && a.errnum == ER_STATEMENT_TIMEOUT)) = true := by
      rcases hr.2 with h | ⟨hp, he⟩
      · simp [h]
      · simp [hp, he]
    have hd' : ¬(a.dur < 1000) := by omega
    simp [execute_cmd_time_limit, ectl_go, hs, hr.1, h2, hd']

/-- Witness for c4_execute_cmd_time_limit: with the budget already
exhausted, a network-error attempt is still executed once and then the
loop terminates with failure. -/
theorem c4_witness :
    execute_cmd_time_limit (fun n => n == 2013) false 0 [⟨false, 2013, 500⟩]
      = ⟨1, [], some false⟩ :=
  ((c4_execute_cmd_time_limit (fun n => n == 2013) false 0 ⟨false, 2013, 500⟩ []).2
    rfl).1 (by decide)

/-- Helper: the catchup loop always performs the head poll, whatever
the remaining budget. -/
theorem catchup_go_polls_pos {G : Type} (ea : G → Bool) (ub : Bool) (rem st : Int)
    (p : PollStep G) (rest : List (PollStep G)) :
    1 ≤ (catchup_go ea ub rem st (p :: rest)).polls := by
  rcases hp : p.res with _ | ⟨bp, cp⟩
  · simp [catchup_go, hp]
  · by_cases hz : ea (if ub then bp else cp)
    · simp [catchup_go, hp, hz]
    · by_cases hrem : rem - p.dur > 0
      · simp [catchup_go, hp, hz, hrem]
      · simp [catchup_go, hp, hz, hrem]

/-- Helper: the catchup loop returns success exactly when one of the
polls it performed observed the target with zero events ahead of the
selected position. -/
theorem catchup_go_result_iff {G : Type} (ea : G → Bool) (ub : Bool) :
    ∀ (env : List (PollStep G)) (rem st : Int),
      ((catchup_go ea ub rem st env).result = some true)
      ↔ ((env.take (catchup_go ea ub rem st env).polls).any
          (fun p => match p.res with
            | some q => ea (if ub then q.1 else q.2)
            | none => false)) = true
  | [], rem, st => by simp [catchup_go]
  | p :: rest, rem, st => by
    rcases hp : p.res with _ | ⟨bp, cp⟩
    · simp [catchup_go, hp]
    · by_cases hz : ea (if ub then bp else cp)
      · simp [catchup_go, hp, hz]
      · by_cases hrem : rem - p.dur > 0
        · have ih := catchup_go_result_iff ea ub rest
            (rem - p.dur - min st (rem - p.dur)) (st + 100)
          simp [catchup_go, hp, hz, hrem, List.take_succ_cons, ih]
        · simp [catchup_go, hp, hz, hrem]

/-- Helper: the k-th sleep performed by the catchup loop is the base
sleep duration plus 100 ms per earlier iteration, clamped to the budget
remaining after the polls and sleeps that preceded it. -/
theorem catchup_go_sleep_values {G : Type} (ea : G → Bool) (ub : Bool) :
    ∀ (env : List (PollStep G)) (rem st : Int) (k : Nat) (s : Int),
      (catchup_go ea ub rem st env).sleeps[k]? = some s →
      s = min (st + 100 * (k : Int))
        (rem - ((env.take (k+1)).map (fun p => p.dur)).sum
          - ((catchup_go ea ub rem st env).sleeps.take k).sum)
  | [], rem, st, k, s => by simp [catchup_go]
  | p :: rest, rem, st, k, s => by
    rcases hp : p.res with _ | ⟨bp, cp⟩
    · simp [catchup_go, hp]
    · by_cases hz : ea (if ub then bp else cp)
      · simp [catchup_go, hp, hz]
      · by_cases hrem : rem - p.dur > 0
        · cases k with
          | zero =>
            intro hk
            simp [catchup_go, hp, hz, hrem] at hk ⊢
            omega
          | succ k =>
            intro hk
            simp only [catchup_go, hp, hz, hrem] at hk ⊢
            simp only [if_true, if_false, Bool.false_eq_true, if_neg hz, if_pos hrem,
              List.getElem?_cons_succ] at hk ⊢
            have ih := catchup_go_sleep_values ea ub rest
              (rem - p.dur - min st (rem - p.dur)) (st + 100) k s hk
            rw [ih]
            simp only [List.take_succ_cons, List.map_cons, List.sum_cons]
            push_cast
            omega
        · simp [catchup_go, hp, hz, hrem]

/-- Claim C7: catchup_to_master polls at least once even with the
budget exhausted; it compares the target against gtid_binlog_pos when
both log_bin and log_slave_updates are set and against gtid_current_pos
otherwise; it succeeds exactly when a performed poll observes zero
events ahead on the selected position; and the k-th sleep between
unsuccessful polls is 200 ms plus 100 ms per earlier iteration, clamped
to the remaining budget. -/
theorem c7_catchup_to_master {G : Type} (events_ahead_zero : G → Bool)
    (rpl : ReplicationSettings) (budget : Int) (env : List (PollStep G)) :
    (∀ p rest, env = p :: rest →
      1 ≤ (catchup_to_master events_ahead_zero rpl budget env).polls)
    ∧ ((catchup_to_master events_ahead_zero rpl budget env).result = some true
        ↔ ((env.take (catchup_to_master events_ahead_zero rpl budget env).polls).any
            (fun p => match p.res with
              | some q => events_ahead_zero
                  (if rpl.log_bin && rpl.log_slave_updates then q.1 else q.2)
              | none => false)) = true)
    ∧ (∀ (k : Nat) (s : Int),
        (catchup_to_master events_ahead_zero rpl budget env).sleeps[k]? = some s →
        s = min (200 + 100 * (k : Int))
          (budget - ((env.take (k+1)).map (fun p => p.dur)).sum
            - ((catchup_to_master events_ahead_zero rpl budget env).sleeps.take k).sum)) := by
  refine ⟨?_, ?_, ?_⟩
  · rintro p rest rfl
    exact catchup_go_polls_pos events_ahead_zero _ budget 200 p rest
  · exact catchup_go_result_iff events_ahead_zero _ env budget 200
  · exact fun k s => catchup_go_sleep_values events_ahead_zero _ env budget 200 k s

/-- Witness for c7_catchup_to_master: two polls within a 1000 ms
budget, the first behind the target and the second caught up; the poll
count is positive and the single sleep is the clamped 200 ms base
value. -/
theorem c7_witness :
    1 ≤ (catchup_to_master (fun g : Nat => g == 0) ⟨false, true, true⟩ 1000
        [⟨some (5, 5), 100⟩, ⟨some (0, 0), 100⟩]).polls
    ∧ (200 : Int) = min (200 + 100 * ((0 : Nat) : Int))
        (1000 - (([(⟨some (5, 5), 100⟩ : PollStep Nat), ⟨some (0, 0), 100⟩].take 1).map
            (fun p => p.dur)).sum
          - (((catchup_to_master (fun g : Nat => g == 0) ⟨false, true, true⟩ 1000
              [⟨some (5, 5), 100⟩, ⟨some (0, 0), 100⟩]).sleeps.take 0).sum)) :=
  ⟨(c7_catchup_to_master (fun g : Nat => g == 0) ⟨false, true, true⟩ 1000
      [⟨some (5, 5), 100⟩, ⟨some (0, 0), 100⟩]).1 ⟨some (5, 5), 100⟩ [⟨some (0, 0), 100⟩] rfl,
    (c7_catchup_to_master (fun g : Nat => g == 0) ⟨false, true, true⟩ 1000
      [⟨some (5, 5), 100⟩, ⟨some (0, 0), 100⟩]).2.2 0 200 (by decide)⟩

/-- Helper: compare_rows spelled as a proposition about the search
row's key. -/
theorem compare_rows_iff (o s : SlaveStatus) :
    compare_rows o s = true
      ↔ (s.master_host = o.master_host ∧ s.master_port = o.master_port) := by
  simp [compare_rows]

/-- Helper: in an array with distinct (master_host, master_port) keys,
the linear scan returns any member that matches the search key. -/
theorem find_first_matching_eq {l : List SlaveStatus} (hd : hostPortDistinct l)
    {r s : SlaveStatus} (hmem : r ∈ l) (hr : compare_rows r s = true) :
    l.find? (fun o => compare_rows o s) = some r := by
  induction l with
  | nil => cases hmem
  | cons a t ih =>
    rcases List.mem_cons.mp hmem with rfl | hmem'
    · simp [List.find?_cons, hr]
    · have ha : compare_rows a s = false := by
        rcases Bool.eq_false_or_eq_true (compare_rows a s) with h | h
        · have h1 := (compare_rows_iff a s).mp h
          have h2 := (compare_rows_iff r s).mp hr
          exact absurd ⟨h1.1 ▸ h2.1, h1.2 ▸ h2.2⟩
            ((List.pairwise_cons.mp hd).1 r hmem')
        · exact h
      simp only [List.find?_cons, ha]
      exact ih (List.pairwise_cons.mp hd).2 hmem'

/-- Helper: with distinct keys, the positional-hint-then-scan lookup of
sstatus_find_previous_row agrees with the plain linear scan, whatever
the hint. -/
theorem sstatus_find_previous_row_eq {l : List SlaveStatus} (hd : hostPortDistinct l)
    (s : SlaveStatus) (g : Nat) :
    sstatus_find_previous_row l s g = l.find? (fun o => compare_rows o s) := by
  unfold sstatus_find_previous_row
  rcases hg : l[g]? with _ | r
  · rfl
  · by_cases hc : compare_rows r s
    · have hfound := find_first_matching_eq hd (List.getElem?_mem hg) hc
      simp [hc, hfound]
    · simp [hc]

/-- Helper: the seen_connected field produced by the per-row merge
step, written as a case analysis on the connection state. -/
theorem mergeOldRow_seen_connected (old : List SlaveStatus) (idx : Nat) (row : SlaveStatus) :
    (mergeOldRow old idx row).seen_connected =
      (match row.slave_io_running with
        | SlaveIOState.yes => true
        | SlaveIOState.connecting =>
          (match sstatus_find_previous_row old row idx with
            | some o =>
              if row.master_server_id == o.master_server_id && o.seen_connected then true
              else row.seen_connected
            | none => row.seen_connected)
        | SlaveIOState.no => row.seen_connected) := by
  unfold mergeOldRow
  rcases hf : sstatus_find_previous_row old row idx with _ | o
  · cases hio : row.slave_io_running <;> simp [hio]
  · by_cases hhb : (row.received_heartbeats == o.received_heartbeats
        && row.gtid_io_pos == o.gtid_io_pos)
    · cases hio : row.slave_io_running
      · simp [hhb, hio]
      · by_cases hcond : (row.master_server_id == o.master_server_id && o.seen_connected) <;>
          simp [hhb, hio, hcond]
      · simp [hhb, hio]
    · cases hio : row.slave_io_running
      · simp [hhb, hio]
      · by_cases hcond : (row.master_server_id == o.master_server_id && o.seen_connected) <;>
          simp [hhb, hio, hcond]
      · simp [hhb, hio]

/-- Claim C3: a row built by update_slave_status has seen_connected
true when its IO thread is running (YES); when it is CONNECTING,
seen_connected holds iff the previous tick had a row with the same
(master_host, master_port) whose seen_connected was true and whose
master_server_id equals the new row's; in every other case it is
false.  The previous array is assumed to hold at most one row per
(master_host, master_port) key, the row identity of §4.2.1. -/
theorem c3_seen_connected (old : List SlaveStatus) (hk : hostPortDistinct old)
    (all_slaves : Bool) (now : Int) (idx : Nat) (r : RawSlaveRow) :
    (r.slave_io_running = SlaveIOState.yes → 0 < r.master_server_id →
      (mergeOldRow old idx (SlaveStatus.fromRaw all_slaves now r)).seen_connected = true)
    ∧ (r.slave_io_running = SlaveIOState.connecting →
      ((mergeOldRow old idx (SlaveStatus.fromRaw all_slaves now r)).seen_connected = true
        ↔ ∃ o ∈ old, o.master_host = r.master_host ∧ o.master_port = r.master_port
            ∧ o.seen_connected = true ∧ o.master_server_id = r.master_server_id))
    ∧ (r.slave_io_running = SlaveIOState.no →
      (mergeOldRow old idx (SlaveStatus.fromRaw all_slaves now r)).seen_connected = false) := by
  have hfind := sstatus_find_previous_row_eq hk (SlaveStatus.fromRaw all_slaves now r) idx
  have hior : (SlaveStatus.fromRaw all_slaves now r).slave_io_running = r.slave_io_running :=
    rfl
  have hidr : (SlaveStatus.fromRaw all_slaves now r).master_server_id = r.master_server_id :=
    rfl
  have hseenr : (SlaveStatus.fromRaw all_slaves now r).seen_connected = false := rfl
  refine ⟨?_, ?_, ?_⟩
  · intro hio _
    rw [mergeOldRow_seen_connected, hior, hio]
  · intro hio
    rw [mergeOldRow_seen_connected, hior, hio]
    simp only [hfind]
    rcases hf : old.find? (fun o => compare_rows o (SlaveStatus.fromRaw all_slaves now r))
        with _ | o
    · have habsent : ¬∃ o ∈ old,
          o.master_host = r.master_host ∧ o.master_port = r.master_port
            ∧ o.seen_connected = true ∧ o.master_server_id = r.master_server_id := by
        rintro ⟨o, hmem, hh, hp, _, _⟩
        have hc : compare_rows o (SlaveStatus.fromRaw all_slaves now r) = true :=
          (compare_rows_iff o _).mpr (by simp [SlaveStatus.fromRaw, hh, hp])
        rw [find_first_matching_eq hk hmem hc] at hf
        cases hf
      simp [hseenr, habsent]
    · have hpred := List.find?_some hf
      have hkey := (compare_rows_iff o _).mp hpred
      have homem := List.mem_of_find?_eq_some hf
      have hhost : o.master_host = r.master_host := by
        have h := hkey.1
        simpa [SlaveStatus.fromRaw] using h.symm
      have hport : o.master_port = r.master_port := by
        have h := hkey.2
        simpa [SlaveStatus.fromRaw] using h.symm
      simp only [hidr, hseenr]
      constructor
      · intro hcond
        by_cases hc : (r.master_server_id == o.master_server_id && o.seen_connected) = true
        · have hc' := Bool.and_eq_true_iff.mp hc
          exact ⟨o, homem, hhost, hport, hc'.2, (beq_iff_eq.mp hc'.1).symm⟩
        · rw [if_neg hc] at hcond
          cases hcond
      · rintro ⟨o', hmem', hh', hp', hs', hid'⟩
        have hc' : compare_rows o' (SlaveStatus.fromRaw all_slaves now r) = true :=
          (compare_rows_iff o' _).mpr (by simp [SlaveStatus.fromRaw, hh', hp'])
        have hsame := find_first_matching_eq hk hmem' hc'
        rw [hf] at hsame
        cases hsame
        simp [hs', hid']
  · intro hio
    rw [mergeOldRow_seen_connected, hior, hio]
    exact hseenr

/-- Witness for c3_seen_connected: a CONNECTING row whose previous-tick
row (same host:port, same master_server_id) had seen_connected set
keeps it set. -/
theorem c3_witness :
    (mergeOldRow [prevRowW] 0 (SlaveStatus.fromRaw true 9 rawRowW)).seen_connected = true :=
  ((c3_seen_connected [prevRowW] (by decide) true 9 0 rawRowW).2.1 rfl).mpr
    ⟨prevRowW, by simp, rfl, rfl, rfl, rfl⟩

/-- Helper: the if/else-if duplicate scan of merge_slave_conns rejects
exactly when some existing connection matches by (seen_connected and
server id) or by host:port. -/
theorem merge_duplicate_check_eq (srv : ServerView) (c : SlaveStatus) :
    merge_duplicate_check srv c
      = (srv.slave_status.any
          (fun m => m.seen_connected && m.master_server_id == c.master_server_id)
        || srv.slave_status.any
          (fun m => m.master_host == c.master_host && m.master_port == c.master_port)) := by
  unfold merge_duplicate_check
  induction srv.slave_status with
  | nil => rfl
  | cons m t ih =>
    simp only [List.any_cons, ih]
    cases hb1 : (m.seen_connected && (m.master_server_id == c.master_server_id)) <;>
      cases hb2 : ((m.master_host == c.master_host) && (m.master_port == c.master_port)) <;>
        simp [hb1, hb2]

/-- Helper: the conn_can_be_merged lambda coincides with the amended
claim's acceptance predicate. -/
theorem conn_can_be_merged_eq (srv : ServerView) (should_be_copied : SlaveStatus → Bool)
    (c : SlaveStatus) :
    conn_can_be_merged srv should_be_copied c
      = claim_merge_accepts srv should_be_copied c := by
  unfold conn_can_be_merged claim_merge_accepts claim_merge_filtered
  rw [merge_duplicate_check_eq]
  cases hsc : should_be_copied c
  · simp
  · by_cases h2 : (c.master_server_id == srv.server_id)
    · simp [h2]
    · by_cases h3 : (c.master_host == srv.address && c.master_port == srv.port) <;>
        simp [h2, h3]

/-- Helper: whenever the merge loop succeeds, it created exactly the
channels described by the amended claim, names included. -/
theorem merge_go_created (srv : ServerView) (should_be_copied create_ok : SlaveStatus → Bool) :
    ∀ (conns : List SlaveStatus) (names : List String),
      (merge_slave_conns_go srv should_be_copied create_ok names conns).1 = true →
      (merge_slave_conns_go srv should_be_copied create_ok names conns).2
        = claim_merged_conns srv should_be_copied names conns
  | [], names, _ => rfl
  | c :: rest, names, hok => by
    by_cases hm : conn_can_be_merged srv should_be_copied c = true
    · have hacc : claim_merge_accepts srv should_be_copied c = true := by
        rw [← conn_can_be_merged_eq]
        exact hm
      by_cases hname : c.name ∈ names
      · by_cases hsynth : synthesized_conn_name c ∈ names
        · exfalso
          simp [merge_slave_conns_go, hm, hname, hsynth] at hok
        · by_cases hcreate : create_ok { c with name := synthesized_conn_name c } = true
          · simp only [merge_slave_conns_go] at hok ⊢
            simp only [hm, if_true] at hok ⊢
            simp [hname, hsynth, hcreate] at hok ⊢
            have ih := merge_go_created srv should_be_copied create_ok rest
              (synthesized_conn_name c :: names) hok
            simp [claim_merged_conns, hacc, hname, ih]
          · exfalso
            simp [merge_slave_conns_go, hm, hname, hsynth, hcreate] at hok
      · by_cases hcreate : create_ok c = true
        · simp only [merge_slave_conns_go] at hok ⊢
          simp only [hm, if_true] at hok ⊢
          simp [hname, hcreate] at hok ⊢
          have ih := merge_go_created srv should_be_copied create_ok rest
            (c.name :: names) hok
          simp [claim_merged_conns, hacc, hname, ih]
        · exfalso
          simp [merge_slave_conns_go, hm, hname, hcreate] at hok
    · have hmf : conn_can_be_merged srv should_be_copied c = false := by
        simpa using hm
      have hacc : claim_merge_accepts srv should_be_copied c = false := by
        rw [← conn_can_be_merged_eq]
        exact hmf
      have ih := merge_go_created srv should_be_copied create_ok rest names
        (by simpa [merge_slave_conns_go, hmf] using hok)
      simp [merge_slave_conns_go, hmf, claim_merged_conns, hacc, ih]

/-- Claim C5 counterexample: the claim filters a candidate that
duplicates an existing channel by master_server_id, but the code only
does so when the existing channel has seen_connected set; here the
existing channel (id 5, never seen connected) does not block the
candidate (also id 5), which the code merges and creates. -/
theorem c5_counterexample :
    (merge_slave_conns srvW (fun _ => true) (fun _ => true) [connW]).1 = true
    ∧ (merge_slave_conns srvW (fun _ => true) (fun _ => true) [connW]).2 = [connW]
    ∧ srvW.slave_status.any
        (fun m => m.master_server_id == connW.master_server_id) = true := by
  decide

/-- Claim C5, amended: whenever failover promotion's merge_slave_conns
succeeds, it creates exactly those channels of the demotion target's
saved list that pass the copy test and are not filtered, where a
channel is filtered iff it targets the promotion target itself by
master_server_id or by master host:port, or duplicates an existing
channel that has been seen connected by master_server_id, or any
existing channel by master host:port; an accepted channel whose name
collides with an existing or already created name is created under the
synthesized name "To [host]:port" instead. -/
theorem c5_merge_slave_conns_amended (srv : ServerView)
    (should_be_copied create_ok : SlaveStatus → Bool) (conns_to_merge : List SlaveStatus)
    (hok : (merge_slave_conns srv should_be_copied create_ok conns_to_merge).1 = true) :
    (merge_slave_conns srv should_be_copied create_ok conns_to_merge).2
      = claim_merged_conns srv should_be_copied
          (srv.slave_status.map fun c => c.name) conns_to_merge := by
  unfold merge_slave_conns at hok ⊢
  exact merge_go_created srv should_be_copied create_ok conns_to_merge
    (srv.slave_status.map fun c => c.name) hok

/-- Witness for c5_merge_slave_conns_amended at the concrete srvW /
connW instance, whose merge succeeds. -/
theorem c5_witness :
    (merge_slave_conns srvW (fun _ => true) (fun _ => true) [connW]).2
      = claim_merged_conns srvW (fun _ => true)
          (srvW.slave_status.map fun c => c.name) [connW] :=
  c5_merge_slave_conns_amended srvW (fun _ => true) (fun _ => true) [connW] (by decide)

end MariaDBMon
